import Mathlib

/-!
Shallow embedding of the VaultDAO storage layer
(`src/contracts/vault/src/storage.rs` and `src/contracts/vault/src/types.rs`).

Storage maps are modelled as functions into `Option`, mirroring the
`get(key) -> Option<Value>` interface of the persistent store; `u64`/`u32`
machine integers are modelled as `Nat` (with explicit saturation where the
source uses `saturating_add`), and `i128` amounts as `Int`.  Addresses are
modelled as `Nat` (only equality of addresses is ever used by the embedded
code).  TTL extension calls have no observable effect on stored values and
are omitted.
-/

namespace VaultDAO

/-- Largest `u32` value, used by the source's `saturating_add` on scores. -/
def U32_MAX : Nat := 4294967295

-- ============================================================================
-- Data model (types.rs)
-- ============================================================================

/-- `VelocityConfig` from types.rs: `limit : u32`, `window : u64` (seconds). -/
structure VelocityConfig where
  limit : Nat
  window : Nat
deriving Repr, DecidableEq

/-- `Reputation` from types.rs (lines 255-268); all counters are `u32`
except `last_decay_ledger : u64`. -/
structure Reputation where
  score : Nat
  proposals_executed : Nat
  proposals_rejected : Nat
  proposals_created : Nat
  approvals_given : Nat
  last_decay_ledger : Nat
deriving Repr, DecidableEq

/-- `Reputation::default()` from types.rs (lines 270-281). -/
def Reputation.default : Reputation :=
  { score := 500
    proposals_executed := 0
    proposals_rejected := 0
    proposals_created := 0
    approvals_given := 0
    last_decay_ledger := 0 }

/-- `Role` from types.rs (lines 93-100). -/
inductive Role where
  | Member
  | Treasurer
  | Admin
deriving Repr, DecidableEq

/-- `InsuranceConfig` from types.rs (lines 290-299). -/
structure InsuranceConfig where
  enabled : Bool
  min_amount : Int
  min_insurance_bps : Nat
  slash_percentage : Nat
deriving Repr, DecidableEq

-- ============================================================================
-- Velocity checking (storage.rs lines 352-382)
-- ============================================================================

/--
`check_and_update_velocity` from storage.rs (lines 352-382), with the ledger
timestamp `now` and the stored history for the proposer passed explicitly.
The source computes `window_start = now.saturating_sub(config.window)` (`Nat`
subtraction is saturating), keeps exactly the timestamps `ts > window_start`,
returns `false` without writing when the retained count reaches the limit,
and otherwise appends `now` and persists.  The returned pair is
(accept flag, stored history after the call).
-/
def check_and_update_velocity (now : Nat) (history : List Nat)
    (config : VelocityConfig) : Bool × List Nat :=
  let window_start := now - config.window
  let updated_history := history.filter (fun ts => window_start < ts)
  if config.limit ≤ updated_history.length then
    (false, history)
  else
    (true, updated_history ++ [now])

-- ============================================================================
-- Reputation decay (storage.rs lines 458-499)
-- ============================================================================

/-- `get_reputation` from storage.rs (lines 458-463): read the stored record
for the address, falling back to `Reputation::default()`.  It performs no
write: it is a pure function of the store. -/
def get_reputation (s : Nat → Option Reputation) (addr : Nat) : Reputation :=
  (s addr).getD Reputation.default

/-- `DECAY_INTERVAL` from storage.rs line 478: ~30 days in ledgers. -/
def DECAY_INTERVAL : Nat := 17280 * 30

/--
One iteration of the decay loop in `apply_reputation_decay`
(storage.rs lines 489-497): move the score toward 500 by
`diff / 20 + 1`, using saturating `u32` arithmetic.
-/
def decayStep (score : Nat) : Nat :=
  if 500 < score then
    score - ((score - 500) / 20 + 1)
  else if score < 500 then
    min (score + ((500 - score) / 20 + 1)) U32_MAX
  else
    score

/--
`apply_reputation_decay` from storage.rs (lines 475-499), with the current
ledger sequence passed explicitly.  An unset (zero) marker is initialized and
the score left untouched; otherwise the decay loop runs once per whole
elapsed 30-day period and the marker is refreshed.
-/
def apply_reputation_decay (current_ledger : Nat) (rep : Reputation) :
    Reputation :=
  if rep.last_decay_ledger = 0 then
    { rep with last_decay_ledger := current_ledger }
  else
    let elapsed := current_ledger - rep.last_decay_ledger
    let periods := elapsed / DECAY_INTERVAL
    if periods = 0 then
      rep
    else
      { rep with
          score := decayStep^[periods] rep.score
          last_decay_ledger := current_ledger }

/-- The per-period step size as claim C4 words it: 5% of the distance from
500, rounded (half up), with a minimum step of 1.  This definition follows
the spec's words, to be compared with `decayStep`, which follows the source. -/
def claimedDecayStepSize (dist : Nat) : Nat := max ((dist * 5 + 50) / 100) 1

-- ============================================================================
-- Daily / weekly spending buckets (storage.rs lines 199-242)
-- ============================================================================

/-- The daily and weekly spending buckets of the temporary storage class. -/
structure SpendStore where
  daily : Nat → Option Int
  weekly : Nat → Option Int

/-- `get_day_number` from storage.rs (lines 199-201). -/
def get_day_number (timestamp : Nat) : Nat := timestamp / 86400

/-- `get_week_number` from storage.rs (lines 224-226). -/
def get_week_number (timestamp : Nat) : Nat := timestamp / 604800

/-- `get_daily_spent` from storage.rs (lines 203-208). -/
def get_daily_spent (s : SpendStore) (day : Nat) : Int := (s.daily day).getD 0

/-- `add_daily_spent` from storage.rs (lines 210-217): read the current
bucket, store current + amount under the same day key. -/
def add_daily_spent (s : SpendStore) (day : Nat) (amount : Int) : SpendStore :=
  { s with daily := fun d =>
      if d = day then some (get_daily_spent s day + amount) else s.daily d }

/-- `get_weekly_spent` from storage.rs (lines 228-233). -/
def get_weekly_spent (s : SpendStore) (week : Nat) : Int :=
  (s.weekly week).getD 0

/-- `add_weekly_spent` from storage.rs (lines 235-242). -/
def add_weekly_spent (s : SpendStore) (week : Nat) (amount : Int) :
    SpendStore :=
  { s with weekly := fun w =>
      if w = week then some (get_weekly_spent s week + amount) else s.weekly w }

-- ============================================================================
-- Proposal id counter (storage.rs lines 142-155)
-- ============================================================================

/-- `get_next_proposal_id` from storage.rs (lines 142-147): the stored
counter, defaulting to 1 when unset. -/
def get_next_proposal_id (s : Option Nat) : Nat := s.getD 1

/-- `increment_proposal_id` from storage.rs (lines 149-155): returns the
current next-id and stores that value plus one. -/
def increment_proposal_id (s : Option Nat) : Nat × Option Nat :=
  (get_next_proposal_id s, some (get_next_proposal_id s + 1))

/-- `n` successive calls of `increment_proposal_id` starting from counter
state `s`: the list of returned ids, in call order, and the final state. -/
def runIncrements (s : Option Nat) : Nat → List Nat × Option Nat
  | 0 => ([], s)
  | n + 1 =>
    let prev := runIncrements s n
    let step := increment_proposal_id prev.2
    (prev.1 ++ [step.1], step.2)

-- ============================================================================
-- Priority queue (storage.rs lines 161-192)
-- ============================================================================

/-- `get_priority_queue` from storage.rs (lines 161-166): the stored queue
for a priority tier, defaulting to the empty vector. -/
def get_priority_queue (s : Nat → Option (List Nat)) (priority : Nat) :
    List Nat :=
  (s priority).getD []

/-- `add_to_priority_queue` from storage.rs (lines 168-176): push the id at
the back and store the result. -/
def add_to_priority_queue (s : Nat → Option (List Nat))
    (priority proposal_id : Nat) : Nat → Option (List Nat) :=
  fun p =>
    if p = priority then
      some (get_priority_queue s priority ++ [proposal_id])
    else s p

/-- The rebuild loop of `remove_from_priority_queue` (storage.rs lines
180-186): scan the queue front to back, pushing every id different from the
removed one onto a fresh vector. -/
def removeScan (queue : List Nat) (proposal_id : Nat) : List Nat :=
  queue.foldl (fun acc id => if id ≠ proposal_id then acc ++ [id] else acc) []

/-- `remove_from_priority_queue` from storage.rs (lines 178-192). -/
def remove_from_priority_queue (s : Nat → Option (List Nat))
    (priority proposal_id : Nat) : Nat → Option (List Nat) :=
  fun p =>
    if p = priority then
      some (removeScan (get_priority_queue s priority) proposal_id)
    else s p

-- ============================================================================
-- Roles (storage.rs lines 108-121)
-- ============================================================================

/-- `get_role` from storage.rs (lines 108-113): stored role, defaulting to
`Role::Member`. -/
def get_role (s : Nat → Option Role) (addr : Nat) : Role :=
  (s addr).getD Role.Member

/-- `set_role` from storage.rs (lines 115-121). -/
def set_role (s : Nat → Option Role) (addr : Nat) (role : Role) :
    Nat → Option Role :=
  fun a => if a = addr then some role else s a

-- ============================================================================
-- Insurance config (storage.rs lines 505-521)
-- ============================================================================

/-- `get_insurance_config` from storage.rs (lines 505-515): stored config,
with the literal fallback record from the source. -/
def get_insurance_config (s : Option InsuranceConfig) : InsuranceConfig :=
  s.getD
    { enabled := false
      min_amount := 0
      min_insurance_bps := 100
      slash_percentage := 50 }

-- ============================================================================
-- Claims C1 and C3: velocity sliding window
-- ============================================================================

/--
**C1.** For every timestamp `now`, stored history and velocity config,
`check_and_update_velocity` prunes exactly the timestamps `≤ now − window`
(saturating `u64` subtraction), returns `false` exactly when the retained
count is at least the limit — leaving the stored history unchanged in that
case — and on success appends `now` to the pruned history and persists it.
-/
theorem check_and_update_velocity_spec (now : Nat) (history : List Nat)
    (config : VelocityConfig) :
    (∀ ts ∈ history,
      (ts ∈ history.filter (fun t => now - config.window < t) ↔
        now - config.window < ts)) ∧
    ((check_and_update_velocity now history config).fst = false ↔
      config.limit ≤
        (history.filter (fun t => now - config.window < t)).length) ∧
    ((check_and_update_velocity now history config).fst = false →
      (check_and_update_velocity now history config).snd = history) ∧
    ((check_and_update_velocity now history config).fst = true →
      (check_and_update_velocity now history config).snd =
        history.filter (fun t => now - config.window < t) ++ [now]) := by
  refine ⟨fun ts hts => ?_, ?_, ?_, ?_⟩
  · simp [List.mem_filter, hts]
  · unfold check_and_update_velocity
    by_cases h : config.limit ≤
        (history.filter (fun t => now - config.window < t)).length
    · simp [h]
    · simp [h]
  · intro h
    unfold check_and_update_velocity at h ⊢
    by_cases hle : config.limit ≤
        (history.filter (fun t => now - config.window < t)).length
    · simp [hle]
    · simp [hle] at h
  · intro h
    unfold check_and_update_velocity at h ⊢
    by_cases hle : config.limit ≤
        (history.filter (fun t => now - config.window < t)).length
    · simp [hle] at h
    · simp [hle]

/-- Witness for C1 at a concrete input: history `[10, 60]`, window 50,
timestamp 100 — entry 10 is pruned, 60 survives, 100 is appended. -/
theorem check_and_update_velocity_spec_witness :
    (check_and_update_velocity 100 [10, 60] ⟨3, 50⟩).snd =
      [10, 60].filter (fun t => 100 - 50 < t) ++ [100] :=
  (check_and_update_velocity_spec 100 [10, 60] ⟨3, 50⟩).2.2.2 (by decide)

/--
**C3.** Whenever `check_and_update_velocity` writes a history vector
(i.e. returns `true`), the persisted vector's length is at most the
configured limit — unconditionally, hence in particular assuming the
invariant held at the previous persisted state.
-/
theorem velocity_written_history_bounded (now : Nat) (history : List Nat)
    (config : VelocityConfig)
    (h : (check_and_update_velocity now history config).fst = true) :
    (check_and_update_velocity now history config).snd.length ≤
      config.limit := by
  unfold check_and_update_velocity at h ⊢
  by_cases hle : config.limit ≤
      (history.filter (fun t => now - config.window < t)).length
  · simp [hle] at h
  · simp [hle] at h ⊢
    omega

/-- Witness for C3 at a concrete input: an empty history with limit 2
accepts, and the persisted history has length 1 ≤ 2. -/
theorem velocity_written_history_bounded_witness :
    (check_and_update_velocity 100 [] ⟨2, 50⟩).snd.length ≤ 2 :=
  velocity_written_history_bounded 100 [] ⟨2, 50⟩ (by decide)

-- ============================================================================
-- Claims C2 and C4: reputation decay
-- ============================================================================

/-- One decay iteration on a score above 500 lands in `[500, score)`. -/
theorem decayStep_above (s : Nat) (h : 500 < s) :
    500 ≤ decayStep s ∧ decayStep s < s := by
  simp only [decayStep, U32_MAX]
  split_ifs <;> omega

/-- One decay iteration on a score below 500 lands in `(score, 500]`. -/
theorem decayStep_below (s : Nat) (h : s < 500) :
    s < decayStep s ∧ decayStep s ≤ 500 := by
  simp only [decayStep, U32_MAX]
  split_ifs <;> omega

/-- One decay iteration preserves the `[0, 1000]` score bound. -/
theorem decayStep_le_1000 (s : Nat) (h : s ≤ 1000) : decayStep s ≤ 1000 := by
  simp only [decayStep, U32_MAX]
  split_ifs <;> omega

/-- Iterated decay preserves the `[0, 1000]` score bound. -/
theorem decayStep_iterate_le_1000 (n : Nat) (s : Nat) (h : s ≤ 1000) :
    decayStep^[n] s ≤ 1000 := by
  induction n generalizing s with
  | zero => simpa using h
  | succ n ih =>
    rw [Function.iterate_succ_apply]
    exact ih _ (decayStep_le_1000 s h)

/-- Decaying a record whose marker already equals the current ledger is a
no-op: zero elapsed time means zero whole periods. -/
theorem apply_decay_at_own_ledger (L : Nat) (rep : Reputation)
    (h : rep.last_decay_ledger = L) :
    apply_reputation_decay L rep = rep := by
  by_cases h0 : rep.last_decay_ledger = 0
  · have hL : L = 0 := by omega
    subst hL
    cases rep with
    | mk s pe pr pc ag ld => simp_all [apply_reputation_decay]
  · have hL : L ≠ 0 := by omega
    simp [apply_reputation_decay, h, hL]

/--
**C2.** For every reputation record with score in `[0, 1000]` and every
current ledger `L`: `apply_reputation_decay` at `L` is idempotent (a second
call at the same ledger changes nothing); a call before a whole 30-day period
has elapsed changes nothing; each decay iteration moves the score strictly
toward 500 without crossing it; and the resulting score stays in `[0, 1000]`.
-/
theorem reputation_decay_spec (rep : Reputation) (L : Nat)
    (hs : rep.score ≤ 1000) :
    apply_reputation_decay L (apply_reputation_decay L rep) =
      apply_reputation_decay L rep ∧
    (rep.last_decay_ledger ≠ 0 →
      L - rep.last_decay_ledger < DECAY_INTERVAL →
      apply_reputation_decay L rep = rep) ∧
    (500 < rep.score →
      500 ≤ decayStep rep.score ∧ decayStep rep.score < rep.score) ∧
    (rep.score < 500 →
      rep.score < decayStep rep.score ∧ decayStep rep.score ≤ 500) ∧
    (apply_reputation_decay L rep).score ≤ 1000 := by
  refine ⟨?_, ?_, decayStep_above rep.score, decayStep_below rep.score, ?_⟩
  · by_cases h0 : rep.last_decay_ledger = 0
    · apply apply_decay_at_own_ledger
      simp [apply_reputation_decay, h0]
    · by_cases hp : (L - rep.last_decay_ledger) / DECAY_INTERVAL = 0
      · have heq : apply_reputation_decay L rep = rep := by
          simp [apply_reputation_decay, h0, hp]
        rw [heq, heq]
      · apply apply_decay_at_own_ledger
        simp [apply_reputation_decay, h0, hp]
  · intro h0 hlt
    have hp : (L - rep.last_decay_ledger) / DECAY_INTERVAL = 0 :=
      Nat.div_eq_of_lt hlt
    simp [apply_reputation_decay, h0, hp]
  · by_cases h0 : rep.last_decay_ledger = 0
    · simpa [apply_reputation_decay, h0] using hs
    · by_cases hp : (L - rep.last_decay_ledger) / DECAY_INTERVAL = 0
      · simpa [apply_reputation_decay, h0, hp] using hs
      · simp only [apply_reputation_decay, h0, hp, if_false, if_neg h0]
        simpa [h0, hp] using
          decayStep_iterate_le_1000
            ((L - rep.last_decay_ledger) / DECAY_INTERVAL) rep.score hs

/-- Witness for C2 at a concrete input: the default record at ledger 7. -/
theorem reputation_decay_spec_witness :
    (apply_reputation_decay 7 Reputation.default).score ≤ 1000 :=
  (reputation_decay_spec Reputation.default 7 (by decide)).2.2.2.2

/--
Counterexample to C4 as stated: at score 520 (distance 20 from 500), a single
elapsed period moves the score by `20 / 20 + 1 = 2` to 518, whereas 5% of the
distance rounded with a minimum step of 1 is `max 1 1 = 1`, which would give
519.
-/
theorem reputation_decay_claim_counterexample :
    (apply_reputation_decay (1 + DECAY_INTERVAL)
        ⟨520, 0, 0, 0, 0, 1⟩).score = 518 ∧
    claimedDecayStepSize (520 - 500) = 1 ∧
    (apply_reputation_decay (1 + DECAY_INTERVAL)
        ⟨520, 0, 0, 0, 0, 1⟩).score ≠
      520 - claimedDecayStepSize (520 - 500) := by
  decide

/--
**C4 (amended).** When the last-decay marker is unset (zero) the call
initializes it and returns the score unchanged; otherwise, for each whole
elapsed 30-day period, the score moves closer to 500 by exactly
`distance / 20 + 1` (integer division — the floor of 5% of the distance plus
a constant 1), never moving past 500; the applied score is the per-period
step iterated once per whole elapsed period.
-/
theorem reputation_decay_step_exact (rep : Reputation) (L : Nat) :
    (rep.last_decay_ledger = 0 →
      apply_reputation_decay L rep = { rep with last_decay_ledger := L }) ∧
    (∀ s, 500 < s →
      decayStep s = s - ((s - 500) / 20 + 1) ∧ 500 ≤ decayStep s) ∧
    (∀ s, s < 500 →
      decayStep s = s + ((500 - s) / 20 + 1) ∧ decayStep s ≤ 500) ∧
    (rep.last_decay_ledger ≠ 0 →
      0 < (L - rep.last_decay_ledger) / DECAY_INTERVAL →
      (apply_reputation_decay L rep).score =
        decayStep^[(L - rep.last_decay_ledger) / DECAY_INTERVAL]
          rep.score) := by
  refine ⟨?_, ?_, ?_, ?_⟩
  · intro h0
    simp [apply_reputation_decay, h0]
  · intro s h
    refine ⟨?_, (decayStep_above s h).1⟩
    simp only [decayStep, U32_MAX]
    split_ifs <;> omega
  · intro s h
    refine ⟨?_, (decayStep_below s h).2⟩
    simp only [decayStep, U32_MAX]
    split_ifs <;> omega
  · intro h0 hp
    have hp0 : ¬ (L - rep.last_decay_ledger) / DECAY_INTERVAL = 0 := by omega
    simp [apply_reputation_decay, h0, hp0]

/-- Witness for C4 (amended) at a concrete input: an unset marker is
initialized to the current ledger and the score is untouched. -/
theorem reputation_decay_step_exact_witness :
    apply_reputation_decay 9 ⟨500, 0, 0, 0, 0, 0⟩ = ⟨500, 0, 0, 0, 0, 9⟩ :=
  (reputation_decay_step_exact ⟨500, 0, 0, 0, 0, 0⟩ 9).1 rfl

-- ============================================================================
-- Claim C5: spending-bucket frame conditions
-- ============================================================================

/--
**C5.** `add_daily_spent d a` makes `get_daily_spent d` equal to its previous
value plus `a` while leaving every other daily bucket and every weekly bucket
unchanged; symmetrically for `add_weekly_spent`; and the current day and week
keys are `timestamp / 86400` and `timestamp / 604800`.
-/
theorem spending_bucket_frame (s : SpendStore) (d d2 w w2 : Nat) (a : Int)
    (ts : Nat) (hd : d2 ≠ d) (hw : w2 ≠ w) :
    get_daily_spent (add_daily_spent s d a) d = get_daily_spent s d + a ∧
    get_daily_spent (add_daily_spent s d a) d2 = get_daily_spent s d2 ∧
    (∀ k, get_weekly_spent (add_daily_spent s d a) k = get_weekly_spent s k) ∧
    get_weekly_spent (add_weekly_spent s w a) w = get_weekly_spent s w + a ∧
    get_weekly_spent (add_weekly_spent s w a) w2 = get_weekly_spent s w2 ∧
    (∀ k, get_daily_spent (add_weekly_spent s w a) k = get_daily_spent s k) ∧
    get_day_number ts = ts / 86400 ∧
    get_week_number ts = ts / 604800 := by
  refine ⟨?_, ?_, fun k => ?_, ?_, ?_, fun k => ?_, rfl, rfl⟩ <;>
    simp [get_daily_spent, add_daily_spent, get_weekly_spent,
      add_weekly_spent, hd, hw]

/-- Witness for C5 at a concrete input: adding 5 to day bucket 0 of the
empty store yields 5 there. -/
theorem spending_bucket_frame_witness :
    get_daily_spent
        (add_daily_spent ⟨fun _ => none, fun _ => none⟩ 0 5) 0 =
      get_daily_spent (⟨fun _ => none, fun _ => none⟩ : SpendStore) 0 + 5 :=
  (spending_bucket_frame ⟨fun _ => none, fun _ => none⟩ 0 1 0 1 5 0
    (by decide) (by decide)).1

-- ============================================================================
-- Claim C6: proposal id counter monotonicity
-- ============================================================================

/-- The ids returned by `n` successive increments starting from state `s`
are `next, next+1, …` and the final counter reads `next + n`. -/
theorem runIncrements_eq (s : Option Nat) (n : Nat) :
    (runIncrements s n).1 =
      (List.range n).map (fun k => get_next_proposal_id s + k) ∧
    get_next_proposal_id (runIncrements s n).2 =
      get_next_proposal_id s + n := by
  induction n with
  | zero => simp [runIncrements]
  | succ n ih =>
    obtain ⟨h1, h2⟩ := ih
    refine ⟨?_, ?_⟩
    · simp [runIncrements, increment_proposal_id, h1, h2, List.range_succ]
    · simp only [runIncrements, increment_proposal_id, get_next_proposal_id,
        Option.getD_some] at h2 ⊢
      omega

/--
**C6.** `increment_proposal_id` returns the stored next-id (1 when the
counter is unset) and stores that value plus one; consequently, across any
sequence of calls the returned ids are strictly increasing, hence pairwise
distinct, and the counter is never reset.
-/
theorem proposal_id_monotonic (s : Option Nat) (n : Nat) :
    increment_proposal_id s =
      (get_next_proposal_id s, some (get_next_proposal_id s + 1)) ∧
    get_next_proposal_id none = 1 ∧
    List.Pairwise (· < ·) (runIncrements s n).1 := by
  refine ⟨rfl, rfl, ?_⟩
  rw [(runIncrements_eq s n).1]
  rw [List.pairwise_map]
  exact (List.pairwise_lt_range n).imp (fun h => by omega)

-- ============================================================================
-- Claim C7: priority queue FIFO discipline
-- ============================================================================

/-- Generalized accumulator form of the removal scan: the loop appends, in
order, exactly the entries different from the removed id. -/
theorem removeScan_foldl (proposal_id : Nat) (q acc : List Nat) :
    q.foldl (fun acc id => if id ≠ proposal_id then acc ++ [id] else acc)
        acc =
      acc ++ q.filter (fun id => id ≠ proposal_id) := by
  induction q generalizing acc with
  | nil => simp
  | cons x xs ih =>
    rw [List.foldl_cons]
    by_cases hx : x = proposal_id
    · rw [if_neg (fun h => h hx), ih]
      simp [hx]
    · rw [if_pos hx, ih]
      simp [List.filter_cons, hx]

/--
**C7.** Each priority tier's queue is FIFO: `add_to_priority_queue` appends
the id at the back, preserving existing entries and their order, and
`remove_from_priority_queue` removes exactly the entries equal to the given
id, preserving the relative order of the rest (it equals a filter).
-/
theorem priority_queue_fifo (s : Nat → Option (List Nat))
    (priority proposal_id : Nat) :
    get_priority_queue (add_to_priority_queue s priority proposal_id)
        priority =
      get_priority_queue s priority ++ [proposal_id] ∧
    get_priority_queue (remove_from_priority_queue s priority proposal_id)
        priority =
      (get_priority_queue s priority).filter
        (fun id => id ≠ proposal_id) := by
  refine ⟨?_, ?_⟩
  · simp [get_priority_queue, add_to_priority_queue]
  · simp only [get_priority_queue, remove_from_priority_queue, if_pos rfl,
      Option.getD_some, removeScan]
    rw [removeScan_foldl]
    simp

-- ============================================================================
-- Claim C8: lazy reputation default
-- ============================================================================

/--
**C8.** For every address with no stored reputation record, `get_reputation`
returns the neutral default — score 500, all counters zero, unset (zero)
last-decay marker.  In the embedding `get_reputation` is a pure function of
the store, so it writes nothing.
-/
theorem reputation_lazy_default (s : Nat → Option Reputation) (addr : Nat)
    (h : s addr = none) :
    (get_reputation s addr).score = 500 ∧
    (get_reputation s addr).proposals_executed = 0 ∧
    (get_reputation s addr).proposals_rejected = 0 ∧
    (get_reputation s addr).proposals_created = 0 ∧
    (get_reputation s addr).approvals_given = 0 ∧
    (get_reputation s addr).last_decay_ledger = 0 := by
  simp [get_reputation, h, Reputation.default]

/-- Witness for C8 at a concrete input: the empty store. -/
theorem reputation_lazy_default_witness :
    (get_reputation (fun _ => none) 0).score = 500 :=
  (reputation_lazy_default (fun _ => none) 0 rfl).1

-- ============================================================================
-- Claim C9: role default and round trip
-- ============================================================================

/--
**C9.** For every address with no stored role assignment, `get_role` returns
`Role::Member`; and `set_role` followed by `get_role` on the same address
returns the role that was set.
-/
theorem role_default_and_roundtrip (s : Nat → Option Role) (addr : Nat)
    (role : Role) (h : s addr = none) :
    get_role s addr = Role.Member ∧
    get_role (set_role s addr role) addr = role := by
  simp [get_role, set_role, h]

/-- Witness for C9 at a concrete input: the empty store, setting `Admin`. -/
theorem role_default_and_roundtrip_witness :
    get_role (set_role (fun _ => none) 0 Role.Admin) 0 = Role.Admin :=
  (role_default_and_roundtrip (fun _ => none) 0 Role.Admin rfl).2

-- ============================================================================
-- Claim C10: insurance config default
-- ============================================================================

/--
**C10.** When no insurance configuration has been stored,
`get_insurance_config` returns the default with `enabled = false`,
`min_amount = 0`, `min_insurance_bps = 100`, and `slash_percentage = 50`
(insurance disabled until an admin configures it).
-/
theorem insurance_config_default :
    get_insurance_config none =
      { enabled := false
        min_amount := 0
        min_insurance_bps := 100
        slash_percentage := 50 } := rfl

end VaultDAO
